import Mathlib

/-!
Verification of the Databricks agent provisioning scripts
(`create_databricks_agent_with_managed_identity.py`, Mode A, and
`create_databricks_agent_with_pat.py`, Mode B).

The development shallowly embeds the two scripts: the OpenAPI document is a
record of the keys the scripts inspect, the remote platform (agent list,
create, update) is explicit state passing, remote HTTP responses are inputs,
and every remote call the scripts issue is recorded in a call log.  Python
`dict.copy()` is a shallow copy, so for the spec-customization function we
embed both the returned value and the value of the caller's argument after
the call (the nested `servers` / `components` objects are shared between the
two dicts, the top level is not).
-/

/-- A security-scheme object, as an association list of its string fields
(for example `type`, `name`, `in`, `description`). -/
abbrev SchemeObj := List (String × String)

/-- One entry of the `servers` array: its `url` field plus any further
fields, which the scripts never inspect. -/
structure ServerEntry where
  url : String
  rest : List (String × String)
deriving DecidableEq, Repr

/-- The `components` object: an optional `securitySchemes` mapping (scheme
name to scheme object) plus uninspected further fields.  `none` means the
`securitySchemes` key is absent. -/
structure Components where
  securitySchemes : Option (List (String × SchemeObj))
  rest : List (String × String)
deriving DecidableEq, Repr

/-- One entry of the top-level `security` array: a requirement object
mapping scheme names to scope lists. -/
abbrev SecurityReq := List (String × List String)

/-- The OpenAPI document, restricted to the keys the scripts read or write:
`servers`, `components`, `security` (each `none` when the key is absent),
plus uninspected further top-level fields. -/
structure SpecDoc where
  servers : Option (List ServerEntry)
  components : Option Components
  security : Option (List SecurityReq)
  rest : List (String × String)
deriving DecidableEq, Repr

namespace MI

/-- `customize_openapi_spec_for_workspace` of the managed-identity script:
the returned document.  The source takes `spec.copy()` and, when `servers`
is present and nonempty, overwrites the first entry's `url` with the
workspace URL. -/
def customize_openapi_spec_for_workspace (spec : SpecDoc)
    (databricks_workspace_url : String) : SpecDoc :=
  { spec with
    servers :=
      match spec.servers with
      | some (e :: es) => some ({ e with url := databricks_workspace_url } :: es)
      | other => other }

/-- Value of the caller's `spec` argument after
`customize_openapi_spec_for_workspace` returns, in the managed-identity
script.  `spec.copy()` is a shallow copy, so the assignment
`customized_spec["servers"][0]["url"] = ...` writes through the shared
`servers` list into the caller's document. -/
def customize_post (spec : SpecDoc) (databricks_workspace_url : String) :
    SpecDoc :=
  { spec with
    servers :=
      match spec.servers with
      | some (e :: es) => some ({ e with url := databricks_workspace_url } :: es)
      | other => other }

end MI

namespace PAT

/-- The synthetic bearer scheme the PAT script installs under the
`bearerAuth` name. -/
def bearerAuthScheme : SchemeObj :=
  [("type", "apiKey"), ("name", "Authorization"), ("in", "header"),
   ("description", "Databricks PAT: Bearer <token>")]

/-- `customize_openapi_spec_for_workspace` of the PAT script: the returned
document.  Starting from `spec.copy()`: when `servers` is present and
nonempty the first entry's `url` becomes the workspace URL; when
`components` and `components.securitySchemes` are both present the whole
`securitySchemes` mapping is replaced by the single `bearerAuth` scheme;
finally the top-level `security` is set to `[{"bearerAuth": []}]`
unconditionally. -/
def customize_openapi_spec_for_workspace (spec : SpecDoc)
    (databricks_workspace_url : String) : SpecDoc :=
  { servers :=
      match spec.servers with
      | some (e :: es) => some ({ e with url := databricks_workspace_url } :: es)
      | other => other
    components :=
      match spec.components with
      | some c =>
          match c.securitySchemes with
          | some _ => some { c with securitySchemes := some [("bearerAuth", bearerAuthScheme)] }
          | none => some c
      | none => none
    security := some [[("bearerAuth", [])]]
    rest := spec.rest }

/-- Value of the caller's `spec` argument after the PAT script's
`customize_openapi_spec_for_workspace` returns.  Through the shallow copy the
`servers[0]["url"]` write and the `components["securitySchemes"]` replacement
reach the caller's document; the top-level `security` assignment rebinds a
key of the copy only, so the caller's `security` is unchanged. -/
def customize_post (spec : SpecDoc) (databricks_workspace_url : String) :
    SpecDoc :=
  { spec with
    servers :=
      match spec.servers with
      | some (e :: es) => some ({ e with url := databricks_workspace_url } :: es)
      | other => other
    components :=
      match spec.components with
      | some c =>
          match c.securitySchemes with
          | some _ => some { c with securitySchemes := some [("bearerAuth", bearerAuthScheme)] }
          | none => some c
      | none => none }

end PAT

/-- The scheme names declared by a document's
`components.securitySchemes` mapping (empty when the mapping is absent). -/
def declaredSchemeNames (spec : SpecDoc) : List String :=
  match spec.components with
  | some c => (c.securitySchemes.getD []).map Prod.fst
  | none => []

-- Decidable equality for `Except`, for evaluating runs at concrete inputs.
deriving instance DecidableEq for Except

/-- The auth binding attached to the OpenAPI tool: Mode A's managed-identity
descriptor (with its token audience) or Mode B's reference to the
provisioned connection resource. -/
inductive AuthBinding where
  | managedIdentity (audience : String)
  | connectionRef (connection_id : String)
deriving DecidableEq, Repr

/-- `OpenApiFunctionDefinition`: tool name, description, the customized
spec document and the auth binding. -/
structure OpenApiFunctionDefinition where
  name : String
  description : String
  spec : SpecDoc
  auth : AuthBinding
deriving DecidableEq, Repr

/-- `OpenApiToolDefinition` wrapping the function definition. -/
structure OpenApiToolDefinition where
  openapi : OpenApiFunctionDefinition
deriving DecidableEq, Repr

/-- The field set passed to a `create_agent` / `update_agent` call.  `name`,
`instructions`, `tools` and `model` are passed at every call site of both
scripts; `description` is passed by the managed-identity script only, so it
is optional (`none` = the keyword argument was omitted). -/
structure AgentFields where
  name : String
  description : Option String
  instructions : String
  tools : List OpenApiToolDefinition
  model : String
deriving DecidableEq, Repr

/-- An agent resource held by the hosting platform.  The platform assigns
the numeric `id` at creation; it is stable across updates. -/
structure Agent where
  id : Nat
  name : String
  description : Option String
  instructions : String
  tools : List OpenApiToolDefinition
  model : String
deriving DecidableEq, Repr

/-- The hosting platform's state: the agents visible to `list_agents`, plus
the id the platform will assign to the next created agent. -/
structure PlatformState where
  agents : List Agent
  nextId : Nat
deriving DecidableEq, Repr

/-- One remote call issued by a run, in order of issue. -/
inductive Call where
  | getToken (scope : String)
  | tokenCreate (lifetime_seconds : Int) (comment : String)
  | connPut (connection_id : String) (authorizationValue : String)
  | listAgents
  | createAgent (fields : AgentFields)
  | updateAgent (agent_id : Nat) (fields : AgentFields)
deriving DecidableEq, Repr

/-- The fatal errors of the PAT script. -/
inductive Err where
  | invalidInput
  | tokenCreationFailed (status : Nat) (body : String)
  | malformedResponse (body : String)
  | connectionProvisioningFailed (status : Nat) (body : String)
deriving DecidableEq, Repr

/-- Response of `POST {workspace}/api/2.0/token/create`: HTTP status, raw
body, and the `token_value` field of the parsed JSON body (`none` when the
field is absent). -/
structure TokenCreateResp where
  status : Nat
  body : String
  token_value : Option String
deriving DecidableEq, Repr

/-- Response of the management-plane connection `PUT`: HTTP status and raw
body. -/
structure PutResp where
  status : Nat
  body : String
deriving DecidableEq, Repr

/-- The external world a PAT-script run interacts with: the on-disk OpenAPI
document, the token-creation response and the connection `PUT` response. -/
structure Env where
  diskSpec : SpecDoc
  tokenCreateResp : TokenCreateResp
  connPutResp : PutResp
deriving DecidableEq, Repr

/-- Scope used to obtain the Databricks-audience token. -/
def databricksScope : String := "2ff814a6-3304-4ab8-85cb-cd0e6f879c1d/.default"

/-- Scope used to obtain the management-plane token. -/
def managementScope : String := "https://management.azure.com/.default"

/-- `list_agents` of the platform client. -/
def list_agents (st : PlatformState) : List Agent := st.agents

/-- `create_agent`: the platform materializes the supplied fields into a new
agent under a fresh id (an omitted `description` is left unset). -/
def create_agent (st : PlatformState) (f : AgentFields) :
    Agent × PlatformState :=
  let ag : Agent :=
    { id := st.nextId, name := f.name, description := f.description,
      instructions := f.instructions, tools := f.tools, model := f.model }
  (ag, { agents := st.agents ++ [ag], nextId := st.nextId + 1 })

/-- How `update_agent` rewrites the matched agent: every supplied field is
overwritten; the omitted `description` keyword is left unchanged by the
platform; the id is stable. -/
def applyFields (ag : Agent) (f : AgentFields) : Agent :=
  { id := ag.id, name := f.name,
    description := match f.description with | some d => some d | none => ag.description,
    instructions := f.instructions, tools := f.tools, model := f.model }

/-- `update_agent`: overwrites the agent carrying `agent_id` with the
supplied fields and returns it. -/
def update_agent (st : PlatformState) (agent_id : Nat) (f : AgentFields) :
    PlatformState :=
  { st with
    agents := st.agents.map (fun ag => if ag.id = agent_id then applyFields ag f else ag) }

/-- The agent reconciler both scripts share: `list_agents`, linear scan for
the first agent whose name equals the desired name, then `update_agent` on
it (keeping its id) or `create_agent`.  Returns the resulting agent, the new
platform state and the calls issued. -/
def reconcileAgent (st : PlatformState) (f : AgentFields) :
    Agent × PlatformState × List Call :=
  match (list_agents st).find? (fun ag => ag.name == f.name) with
  | some existing =>
      (applyFields existing f, update_agent st existing.id f,
       [Call.listAgents, Call.updateAgent existing.id f])
  | none =>
      let (ag, st') := create_agent st f
      (ag, st', [Call.listAgents, Call.createAgent f])

namespace PAT

/-- `create_databricks_pat`: obtains a Databricks-audience token from the
identity provider, then `POST`s `/api/2.0/token/create` with the comment and
the lifetime converted to seconds.  A status other than 200 is fatal with
the status and body; a 200 body whose `token_value` is missing or empty
(Python `if not pat_token`) is fatal as a malformed response. -/
def create_databricks_pat (resp : TokenCreateResp)
    (comment : String) (lifetime_days : Int) :
    Except Err String × List Call :=
  let log := [Call.getToken databricksScope,
              Call.tokenCreate (lifetime_days * 24 * 60 * 60) comment]
  if resp.status ≠ 200 then
    (Except.error (Err.tokenCreationFailed resp.status resp.body), log)
  else
    match resp.token_value with
    | none => (Except.error (Err.malformedResponse resp.body), log)
    | some t =>
        if t = "" then (Except.error (Err.malformedResponse resp.body), log)
        else (Except.ok t, log)

/-- The connection resource id `create_ai_foundry_connection` builds
deterministically from its path components. -/
def connectionIdOf (subscription_id resource_group account_name
    project_name connection_name : String) : String :=
  "/subscriptions/" ++ subscription_id ++ "/resourceGroups/" ++ resource_group ++
  "/providers/Microsoft.CognitiveServices/accounts/" ++ account_name ++
  "/projects/" ++ project_name ++ "/connections/" ++ connection_name

/-- `create_ai_foundry_connection`: obtains a management-plane token, builds
the connection resource id from the five supplied components, and issues an
idempotent `PUT` carrying the PAT as an `Authorization: Bearer` key.  Status
200 and 201 both succeed with the built id; any other status is fatal with
the status and body. -/
def create_ai_foundry_connection (resp : PutResp)
    (connection_name databricks_pat subscription_id resource_group
     account_name project_name : String) :
    Except Err String × List Call :=
  let connection_id := connectionIdOf subscription_id resource_group
    account_name project_name connection_name
  let log := [Call.getToken managementScope,
              Call.connPut connection_id ("Bearer " ++ databricks_pat)]
  if resp.status = 200 ∨ resp.status = 201 then
    (Except.ok connection_id, log)
  else
    (Except.error (Err.connectionProvisioningFailed resp.status resp.body), log)

/-- The fixed tool description of the PAT script. -/
def toolDescription : String :=
  "Access to Azure Databricks REST API including clusters, jobs, " ++
  "workspace management, command execution, and vector search"

/-- The fixed instruction prompt of the PAT script. -/
def instructions : String :=
  "You are a helpful AI assistant with access to Azure Databricks. " ++
  "You can help users interact with Databricks resources including " ++
  "clusters, jobs, workspaces and vector search endpoints. " ++
  "When users ask about Databricks resources, use the " ++
  "databricks_api tool to retrieve information."

/-- The inputs of the PAT script's `register_databricks_openapi_tool`. -/
structure Args where
  project_endpoint : String
  databricks_workspace_url : String
  connection_name : String
  agent_name : String
  model_deployment_name : String
  subscription_id : String
  resource_group : String
  account_name : String
  project_name : String
  databricks_pat : Option String
  pat_lifetime_days : Int
  pat_comment : String
deriving DecidableEq, Repr

/-- Python truthiness of the optional `databricks_pat` argument:
`if databricks_pat:` is false for `None` and for the empty string. -/
def truthy : Option String → Bool
  | none => false
  | some s => s ≠ ""

/-- Python `str.strip()`: drops leading and trailing whitespace
characters.  Defined over the character list so that it evaluates by
kernel reduction. -/
def strip (s : String) : String :=
  ⟨((s.data.dropWhile Char.isWhitespace).reverse.dropWhile
      Char.isWhitespace).reverse⟩

/-- Step 1 of `register_databricks_openapi_tool`: the credential
acquisition.  When `databricks_pat` is truthy it is stripped and rejected as
invalid input if empty after stripping, otherwise used with provenance
`provided` and no remote call; when falsy (absent or the empty string) a new
PAT is generated via `create_databricks_pat` with provenance `generated`. -/
def acquireCredential (a : Args) (resp : TokenCreateResp) :
    Except Err (String × String) × List Call :=
  if truthy a.databricks_pat then
    let s := a.databricks_pat.getD ""
    if strip s = "" then (Except.error Err.invalidInput, [])
    else (Except.ok (strip s, "provided"), [])
  else
    match create_databricks_pat resp a.pat_comment a.pat_lifetime_days with
    | (Except.ok t, log) => (Except.ok ((t, "generated")), log)
    | (Except.error e, log) => (Except.error e, log)

/-- The JSON result record a successful PAT-script run prints. -/
structure Output where
  ai_foundry_project_endpoint : String
  ai_model_deployment_name : String
  ai_foundry_agent_id : Nat
  agent_name : String
  databricks_workspace_url : String
  auth_type : String
  connection_name : String
  connection_id : String
  pat_lifetime_days : Option Int
  pat_source : String
deriving DecidableEq, Repr

/-- `register_databricks_openapi_tool` of the PAT script: acquire the PAT
(step 1), provision the connection (step 2), customize the on-disk spec and
bind the tool to the connection, reconcile the agent by name, and emit the
result record.  A failure at step 1 or 2 aborts the run with the platform
state untouched. -/
def register_databricks_openapi_tool (env : Env) (st : PlatformState)
    (a : Args) : Except Err Output × PlatformState × List Call :=
  match acquireCredential a env.tokenCreateResp with
  | (Except.error e, log1) => (Except.error e, st, log1)
  | (Except.ok (pat_token, pat_source), log1) =>
    match create_ai_foundry_connection env.connPutResp a.connection_name
        pat_token a.subscription_id a.resource_group a.account_name
        a.project_name with
    | (Except.error e, log2) => (Except.error e, st, log1 ++ log2)
    | (Except.ok connection_id, log2) =>
      let openapi_spec := customize_openapi_spec_for_workspace env.diskSpec
        a.databricks_workspace_url
      let openapi_tool : OpenApiToolDefinition :=
        { openapi :=
          { name := "databricks_api", description := toolDescription,
            spec := openapi_spec,
            auth := AuthBinding.connectionRef connection_id } }
      let fields : AgentFields :=
        { name := a.agent_name, description := none,
          instructions := instructions, tools := [openapi_tool],
          model := a.model_deployment_name }
      let (agent, st2, log3) := reconcileAgent st fields
      let config : Output :=
        { ai_foundry_project_endpoint := a.project_endpoint,
          ai_model_deployment_name := a.model_deployment_name,
          ai_foundry_agent_id := agent.id,
          agent_name := agent.name,
          databricks_workspace_url := a.databricks_workspace_url,
          auth_type := "PersonalAccessToken",
          connection_name := a.connection_name,
          connection_id := connection_id,
          pat_lifetime_days :=
            if pat_source = "generated" then some a.pat_lifetime_days else none,
          pat_source := pat_source }
      (Except.ok config, st2, log1 ++ log2 ++ log3)

end PAT

namespace MI

/-- The fixed tool description of the managed-identity script. -/
def toolDescription : String :=
  "Access to Azure Databricks REST API including clusters, jobs, " ++
  "workspace management, command execution, and vector search operations"

/-- The fixed agent description of the managed-identity script. -/
def agentDescription : String :=
  "AI Agent with access to Azure Databricks APIs via Managed Identity"

/-- The fixed instruction prompt of the managed-identity script. -/
def instructions : String :=
  "You are an AI assistant with access to Azure Databricks APIs.\n\n" ++
  "You can help with:\n" ++
  "- Managing Databricks clusters (list, create, start, stop, delete)\n" ++
  "- Running and monitoring Databricks jobs\n" ++
  "- Managing workspace notebooks and files\n" ++
  "- Executing commands on clusters\n" ++
  "- Vector search operations (creating endpoints and indexes, querying vectors)\n\n" ++
  "When using the Databricks API:\n" ++
  "1. Always check cluster status before executing commands\n" ++
  "2. Use appropriate error handling\n" ++
  "3. For vector search, understand the difference between Delta Sync and Direct Access indexes\n" ++
  "4. Remember that authentication is handled automatically via managed identity\n\n" ++
  "Be helpful and provide clear explanations of what you\x27re doing."

/-- The inputs of the managed-identity script's
`register_databricks_openapi_tool`. -/
structure Args where
  project_endpoint : String
  databricks_workspace_url : String
  agent_name : String
  model_deployment_name : String
deriving DecidableEq, Repr

/-- `register_databricks_openapi_tool` of the managed-identity script:
customize the on-disk spec, bind the tool to the managed-identity auth
descriptor with the Databricks audience, and reconcile the agent by name.
Returns the agent id, the new platform state and the calls issued. -/
def register_databricks_openapi_tool (diskSpec : SpecDoc)
    (st : PlatformState) (a : Args) : Nat × PlatformState × List Call :=
  let openapi_spec := customize_openapi_spec_for_workspace diskSpec
    a.databricks_workspace_url
  let tool_definition : OpenApiToolDefinition :=
    { openapi :=
      { name := "databricks_api", description := toolDescription,
        spec := openapi_spec,
        auth := AuthBinding.managedIdentity "2ff814a6-3304-4ab8-85cb-cd0e6f879c1d" } }
  let fields : AgentFields :=
    { name := a.agent_name, description := some agentDescription,
      instructions := instructions, tools := [tool_definition],
      model := a.model_deployment_name }
  let (agent, st2, log) := reconcileAgent st fields
  (agent.id, st2, log)

end MI

/-- Whether a call is an agent-creation call. -/
def Call.isCreate : Call → Bool
  | Call.createAgent _ => true
  | _ => false

/-- Whether a call is an agent-update call. -/
def Call.isUpdate : Call → Bool
  | Call.updateAgent _ _ => true
  | _ => false

/-- Whether a call is the connection-provisioning `PUT`. -/
def Call.isConnPut : Call → Bool
  | Call.connPut _ _ => true
  | _ => false

/-- Whether a call is any agent list/create/update call. -/
def Call.isAgentCall : Call → Bool
  | Call.listAgents => true
  | Call.createAgent _ => true
  | Call.updateAgent _ _ => true
  | _ => false

/-- The id and field set of the first agent-update call of a log, when
there is one. -/
def updateCallOf (log : List Call) : Option (Nat × AgentFields) :=
  log.findSome? fun c =>
    match c with
    | Call.updateAgent i f => some (i, f)
    | _ => none

/-- The OpenAPI tool the PAT script binds: the customized disk spec plus a
reference to the deterministic connection id. -/
def PAT.toolOf (env : Env) (a : PAT.Args) : OpenApiToolDefinition :=
  { openapi :=
    { name := "databricks_api", description := PAT.toolDescription,
      spec := PAT.customize_openapi_spec_for_workspace env.diskSpec
        a.databricks_workspace_url,
      auth := AuthBinding.connectionRef (PAT.connectionIdOf a.subscription_id
        a.resource_group a.account_name a.project_name a.connection_name) } }

/-- The agent field set the PAT script passes to create/update: no
`description` keyword appears at either call site. -/
def PAT.fieldsOf (env : Env) (a : PAT.Args) : AgentFields :=
  { name := a.agent_name, description := none,
    instructions := PAT.instructions, tools := [PAT.toolOf env a],
    model := a.model_deployment_name }

/-- The OpenAPI tool the managed-identity script binds: the customized disk
spec plus the managed-identity auth descriptor. -/
def MI.toolOf (diskSpec : SpecDoc) (a : MI.Args) : OpenApiToolDefinition :=
  { openapi :=
    { name := "databricks_api", description := MI.toolDescription,
      spec := MI.customize_openapi_spec_for_workspace diskSpec
        a.databricks_workspace_url,
      auth := AuthBinding.managedIdentity "2ff814a6-3304-4ab8-85cb-cd0e6f879c1d" } }

/-- The agent field set the managed-identity script passes to create/update,
including the fixed `description`. -/
def MI.fieldsOf (diskSpec : SpecDoc) (a : MI.Args) : AgentFields :=
  { name := a.agent_name, description := some MI.agentDescription,
    instructions := MI.instructions, tools := [MI.toolOf diskSpec a],
    model := a.model_deployment_name }

/-- A sample OpenAPI document of the shape the scripts expect on disk: one
server entry, an identity-federation security scheme and a matching
top-level security requirement. -/
def sampleSpec : SpecDoc :=
  { servers := some [{ url := "https://example.databricks.net",
                       rest := [("description", "workspace")] }],
    components := some
      { securitySchemes := some [("oauth2AzureAD", [("type", "oauth2")])],
        rest := [] },
    security := some [[("oauth2AzureAD", [])]],
    rest := [("openapi", "3.0.1")] }

/-- A document whose `components.securitySchemes` mapping is absent. -/
def sampleSpecNoSchemes : SpecDoc :=
  { servers := some [{ url := "https://example.databricks.net", rest := [] }],
    components := some { securitySchemes := none, rest := [("schemas", "x")] },
    security := none,
    rest := [] }

/-- A pre-existing agent whose name equals the default desired agent name. -/
def sampleAgent : Agent :=
  { id := 7, name := "DatabricksVectorSearchAgent",
    description := some "old description",
    instructions := "old instructions", tools := [], model := "gpt-35-turbo" }

/-- A platform state holding `sampleAgent`. -/
def sampleState : PlatformState := { agents := [sampleAgent], nextId := 8 }

/-- An environment whose remote endpoints all answer successfully. -/
def sampleEnv : Env :=
  { diskSpec := sampleSpec,
    tokenCreateResp := { status := 200, body := "ok", token_value := some "dapi123" },
    connPutResp := { status := 200, body := "ok" } }

/-- PAT-script inputs with a provided PAT carrying surrounding whitespace. -/
def sampleArgs : PAT.Args :=
  { project_endpoint := "https://acct.services.ai.azure.com/api/projects/proj",
    databricks_workspace_url := "https://adb-1.azuredatabricks.net",
    connection_name := "databricks-pat-connection",
    agent_name := "DatabricksVectorSearchAgent",
    model_deployment_name := "gpt-4o",
    subscription_id := "sub-0000",
    resource_group := "rg-ai",
    account_name := "acct",
    project_name := "proj",
    databricks_pat := some " abc123 ",
    pat_lifetime_days := 90,
    pat_comment := "AI Foundry Agent" }

/-- Managed-identity-script inputs matching `sampleArgs`. -/
def sampleMiArgs : MI.Args :=
  { project_endpoint := "https://acct.services.ai.azure.com/api/projects/proj",
    databricks_workspace_url := "https://adb-1.azuredatabricks.net",
    agent_name := "DatabricksVectorSearchAgent",
    model_deployment_name := "gpt-4o" }

/-- PAT-script inputs whose provided PAT is the empty string. -/
def emptyPatArgs : PAT.Args :=
  { sampleArgs with databricks_pat := some "" }

/-- PAT-script inputs whose provided PAT is a single blank. -/
def blankPatArgs : PAT.Args :=
  { sampleArgs with databricks_pat := some " " }

/-- After mapping the updater for the id of the first name-match over the
agent list, the first name-match still carries that id. -/
theorem find?_map_applyFields (l : List Agent) (f : AgentFields) (ex : Agent)
    (h : l.find? (fun ag => ag.name == f.name) = some ex) :
    ∃ ag,
      (l.map (fun a => if a.id = ex.id then applyFields a f else a)).find?
          (fun ag => ag.name == f.name) = some ag ∧ ag.id = ex.id := by
  induction l with
  | nil => simp [List.find?] at h
  | cons a l ih =>
    by_cases ha : (a.name == f.name) = true
    · simp only [List.find?_cons, ha] at h
      cases h
      refine ⟨applyFields ex f, ?_, rfl⟩
      simp [List.find?_cons, applyFields]
    · have ha' : (a.name == f.name) = false := by simpa using ha
      simp only [List.find?_cons, ha'] at h
      obtain ⟨ag, hfind, hid⟩ := ih h
      by_cases hid' : a.id = ex.id
      · refine ⟨applyFields a f, ?_, by simp [applyFields, hid']⟩
        simp [List.find?_cons, applyFields, hid']
      · refine ⟨ag, ?_, hid⟩
        simp only [List.map_cons, if_neg hid']
        simp only [List.find?_cons, ha']
        exact hfind

/-- Searching a list extended on the right with a matching element finds
that element when the original list has no match. -/
theorem find?_append_singleton (l : List Agent) (p : Agent → Bool) (a : Agent)
    (h : l.find? p = none) (hp : p a = true) :
    (l ++ [a]).find? p = some a := by
  induction l with
  | nil => simp [List.find?, hp]
  | cons b l ih =>
    by_cases hb : p b = true
    · simp only [List.find?_cons, hb] at h
      cases h
    · have hb' : p b = false := by simpa using hb
      simp only [List.find?_cons, hb'] at h
      simp only [List.cons_append, List.find?_cons, hb']
      exact ih h

/-- The state a reconciliation produces still resolves the desired name, by
the same linear scan, to an agent carrying the id the reconciliation
returned. -/
theorem reconcileAgent_find_self (st : PlatformState) (f : AgentFields) :
    ∃ ag,
      ((reconcileAgent st f).2.1.agents).find? (fun a => a.name == f.name) =
          some ag ∧ ag.id = (reconcileAgent st f).1.id := by
  unfold reconcileAgent
  cases hfind : (list_agents st).find? (fun ag => ag.name == f.name) with
  | some ex =>
    simp only [update_agent, create_agent, list_agents] at *
    obtain ⟨ag, h1, h2⟩ := find?_map_applyFields st.agents f ex hfind
    exact ⟨ag, h1, by simpa [applyFields] using h2⟩
  | none =>
    simp only [list_agents] at hfind
    simp only [create_agent, list_agents]
    refine ⟨_, find?_append_singleton st.agents _ _ hfind (by simp), rfl⟩

/-- Reconciliation with a first name-match takes the update path: it keeps
the matched agent's id and issues a list call followed by an update call. -/
theorem reconcileAgent_found (st : PlatformState) (f : AgentFields)
    (ex : Agent) (h : st.agents.find? (fun ag => ag.name == f.name) = some ex) :
    reconcileAgent st f =
      (applyFields ex f, update_agent st ex.id f,
       [Call.listAgents, Call.updateAgent ex.id f]) := by
  unfold reconcileAgent list_agents
  rw [h]

/-- Reconciliation with no name-match takes the create path: it appends a
fresh agent under the next platform id and issues a list call followed by a
create call. -/
theorem reconcileAgent_not_found (st : PlatformState) (f : AgentFields)
    (h : st.agents.find? (fun ag => ag.name == f.name) = none) :
    reconcileAgent st f =
      ({ id := st.nextId, name := f.name, description := f.description,
         instructions := f.instructions, tools := f.tools, model := f.model },
       { agents := st.agents ++
           [{ id := st.nextId, name := f.name, description := f.description,
              instructions := f.instructions, tools := f.tools, model := f.model }],
         nextId := st.nextId + 1 },
       [Call.listAgents, Call.createAgent f]) := by
  unfold reconcileAgent list_agents
  rw [h]
  rfl

/-- Reconciling twice with the same desired fields returns the same agent id
the second time, and the second reconciliation is an update, never a
create. -/
theorem reconcileAgent_twice (st : PlatformState) (f : AgentFields) :
    (reconcileAgent (reconcileAgent st f).2.1 f).1.id =
        (reconcileAgent st f).1.id ∧
    (reconcileAgent (reconcileAgent st f).2.1 f).2.2.any Call.isUpdate = true ∧
    (reconcileAgent (reconcileAgent st f).2.1 f).2.2.any Call.isCreate = false := by
  obtain ⟨ag, hfind, hid⟩ := reconcileAgent_find_self st f
  rw [reconcileAgent_found _ _ _ hfind]
  refine ⟨?_, by simp [Call.isUpdate], by simp [Call.isUpdate, Call.isCreate]⟩
  simpa [applyFields] using hid

/-- A PAT-script run with a provided, non-blank PAT and an accepted
connection `PUT` succeeds: its result record, final platform state and call
log, expressed through the shared reconciler. -/
theorem register_pat_provided_eq (env : Env) (st : PlatformState)
    (a : PAT.Args) (p : String) (hp : a.databricks_pat = some p)
    (hne : PAT.strip p ≠ "")
    (hput : env.connPutResp.status = 200 ∨ env.connPutResp.status = 201) :
    PAT.register_databricks_openapi_tool env st a =
      (Except.ok
        { ai_foundry_project_endpoint := a.project_endpoint,
          ai_model_deployment_name := a.model_deployment_name,
          ai_foundry_agent_id := (reconcileAgent st (PAT.fieldsOf env a)).1.id,
          agent_name := (reconcileAgent st (PAT.fieldsOf env a)).1.name,
          databricks_workspace_url := a.databricks_workspace_url,
          auth_type := "PersonalAccessToken",
          connection_name := a.connection_name,
          connection_id := PAT.connectionIdOf a.subscription_id
            a.resource_group a.account_name a.project_name a.connection_name,
          pat_lifetime_days := none,
          pat_source := "provided" },
       (reconcileAgent st (PAT.fieldsOf env a)).2.1,
       [Call.getToken managementScope,
        Call.connPut (PAT.connectionIdOf a.subscription_id a.resource_group
          a.account_name a.project_name a.connection_name)
          ("Bearer " ++ PAT.strip p)] ++
         (reconcileAgent st (PAT.fieldsOf env a)).2.2) := by
  have hs : p ≠ "" := by
    intro h
    exact hne (by rw [h]; decide)
  rcases hrec : reconcileAgent st (PAT.fieldsOf env a) with ⟨ag, st2, lg⟩
  simp only [PAT.register_databricks_openapi_tool, PAT.acquireCredential,
    PAT.truthy, hp, Option.getD_some]
  rw [if_pos (by simp [hs]), if_neg hne]
  simp only [PAT.create_ai_foundry_connection]
  rw [if_pos hput]
  simp only [PAT.fieldsOf, PAT.toolOf] at hrec
  simp [hrec]

/-- A managed-identity-script run, expressed through the shared
reconciler. -/
theorem register_mi_eq (diskSpec : SpecDoc) (st : PlatformState)
    (a : MI.Args) :
    MI.register_databricks_openapi_tool diskSpec st a =
      ((reconcileAgent st (MI.fieldsOf diskSpec a)).1.id,
       (reconcileAgent st (MI.fieldsOf diskSpec a)).2.1,
       (reconcileAgent st (MI.fieldsOf diskSpec a)).2.2) := by
  rcases hrec : reconcileAgent st (MI.fieldsOf diskSpec a) with ⟨ag, st2, lg⟩
  simp only [MI.register_databricks_openapi_tool]
  simp only [MI.fieldsOf, MI.toolOf] at hrec
  rw [hrec]

/-- C9: spec customization is idempotent — for every document and workspace
URL, customizing the output of `customize_openapi_spec_for_workspace` again
with the same workspace URL yields a value-equal document, in both the
managed-identity and PAT variants. -/
theorem spec_customization_idempotent (spec : SpecDoc) (w : String) :
    PAT.customize_openapi_spec_for_workspace
        (PAT.customize_openapi_spec_for_workspace spec w) w =
      PAT.customize_openapi_spec_for_workspace spec w ∧
    MI.customize_openapi_spec_for_workspace
        (MI.customize_openapi_spec_for_workspace spec w) w =
      MI.customize_openapi_spec_for_workspace spec w := by
  obtain ⟨sv, co, se, re⟩ := spec
  constructor
  · simp only [PAT.customize_openapi_spec_for_workspace]
    rcases sv with _ | (_ | ⟨e, es⟩) <;>
      rcases co with _ | ⟨_ | sm, cr⟩ <;> simp
  · simp only [MI.customize_openapi_spec_for_workspace]
    rcases sv with _ | (_ | ⟨e, es⟩) <;> simp

/-- C10: the PAT variant's customization unconditionally sets the top-level
security requirement to the single `bearerAuth` entry; when the input
document has no `components.securitySchemes` mapping, the scheme mapping is
left untouched and the resulting document's security requirement references
a scheme the document does not declare. -/
theorem pat_customize_security_unconditional (spec : SpecDoc) (w : String) :
    (PAT.customize_openapi_spec_for_workspace spec w).security =
        some [[("bearerAuth", [])]] ∧
    ((∀ c, spec.components = some c → c.securitySchemes = none) →
      (PAT.customize_openapi_spec_for_workspace spec w).components =
          spec.components ∧
      "bearerAuth" ∉
        declaredSchemeNames (PAT.customize_openapi_spec_for_workspace spec w)) := by
  constructor
  · rfl
  · intro hno
    cases hco : spec.components with
    | none =>
        constructor
        · simp [PAT.customize_openapi_spec_for_workspace, hco]
        · simp [declaredSchemeNames, PAT.customize_openapi_spec_for_workspace, hco]
    | some c =>
        have hcs : c.securitySchemes = none := hno c hco
        constructor
        · simp [PAT.customize_openapi_spec_for_workspace, hco, hcs]
        · simp [declaredSchemeNames, PAT.customize_openapi_spec_for_workspace,
            hco, hcs]

/-- Witness for C10 at a concrete document lacking a
`components.securitySchemes` mapping. -/
theorem pat_customize_security_unconditional_witness :
    (PAT.customize_openapi_spec_for_workspace sampleSpecNoSchemes
        "https://adb-1.azuredatabricks.net").security =
        some [[("bearerAuth", [])]] ∧
    (PAT.customize_openapi_spec_for_workspace sampleSpecNoSchemes
        "https://adb-1.azuredatabricks.net").components =
        sampleSpecNoSchemes.components ∧
    "bearerAuth" ∉
      declaredSchemeNames (PAT.customize_openapi_spec_for_workspace
        sampleSpecNoSchemes "https://adb-1.azuredatabricks.net") := by
  have h := pat_customize_security_unconditional sampleSpecNoSchemes
    "https://adb-1.azuredatabricks.net"
  have hno : ∀ c, sampleSpecNoSchemes.components = some c →
      c.securitySchemes = none := by
    intro c hc
    have hc' : some ({ securitySchemes := none, rest := [("schemas", "x")] } :
        Components) = some c := hc
    cases hc'
    rfl
  exact ⟨h.1, (h.2 hno).1, (h.2 hno).2⟩

/-- C3 (refuted — the code mutates its input): at a document with one server
entry and a declared security scheme, the caller's document after
`customize_openapi_spec_for_workspace` differs from its value before the
call, in both variants: the shallow `dict.copy()` shares the nested
`servers` and `components` objects, so the server-URL write (both variants)
and the security-scheme replacement (PAT variant) reach the input
document. -/
theorem customize_mutates_input :
    MI.customize_post sampleSpec "https://adb-1.azuredatabricks.net" ≠
        sampleSpec ∧
    PAT.customize_post sampleSpec "https://adb-1.azuredatabricks.net" ≠
        sampleSpec ∧
    (MI.customize_post sampleSpec "https://adb-1.azuredatabricks.net").servers =
      some [{ url := "https://adb-1.azuredatabricks.net",
              rest := [("description", "workspace")] }] := by
  refine ⟨by decide, by decide, by decide⟩

/-- C2 (refuted at the empty string): a provided empty-string credential is
not rejected as invalid input — `if databricks_pat:` is false for the empty
string, so the run takes the generation path and issues remote calls (the
identity-provider token fetch and the token-creation POST). -/
theorem empty_provided_pat_not_rejected :
    (PAT.acquireCredential emptyPatArgs sampleEnv.tokenCreateResp).1 ≠
        Except.error Err.invalidInput ∧
    (PAT.acquireCredential emptyPatArgs sampleEnv.tokenCreateResp).2 ≠
        ([] : List Call) ∧
    (PAT.acquireCredential emptyPatArgs sampleEnv.tokenCreateResp).2 =
        [Call.getToken databricksScope,
         Call.tokenCreate (90 * 24 * 60 * 60) "AI Foundry Agent"] := by
  refine ⟨by decide, by decide, by decide⟩

/-- C2 (amended): for every provided credential string that is non-empty
but consists only of whitespace, credential acquisition fails with the
invalid-input error and performs no remote call; a provided empty string is
instead treated as an absent credential and takes the generation path. -/
theorem blank_provided_pat_rejected (a : PAT.Args) (resp : TokenCreateResp)
    (s : String) (hp : a.databricks_pat = some s) (hne : s ≠ "")
    (hws : PAT.strip s = "") :
    PAT.acquireCredential a resp = (Except.error Err.invalidInput, []) := by
  simp [PAT.acquireCredential, PAT.truthy, hp, hne, hws]

/-- Witness for the amended C2 at the one-blank credential. -/
theorem blank_provided_pat_rejected_witness :
    PAT.acquireCredential blankPatArgs sampleEnv.tokenCreateResp =
      (Except.error Err.invalidInput, []) :=
  blank_provided_pat_rejected blankPatArgs sampleEnv.tokenCreateResp " "
    (by decide) (by decide) (by decide)

/-- C7: for every provided credential string that is non-empty after
stripping surrounding whitespace, the acquired credential is the stripped
input with provenance `provided`, and no remote call (in particular no
token generation) occurs. -/
theorem provided_pat_used_verbatim (a : PAT.Args) (resp : TokenCreateResp)
    (s : String) (hp : a.databricks_pat = some s)
    (hne : PAT.strip s ≠ "") :
    PAT.acquireCredential a resp = (Except.ok (PAT.strip s, "provided"), []) := by
  have hs : s ≠ "" := by
    intro h
    exact hne (by rw [h]; decide)
  simp [PAT.acquireCredential, PAT.truthy, hp, hs, hne]

/-- Witness for C7 at a whitespace-padded concrete credential. -/
theorem provided_pat_used_verbatim_witness :
    PAT.acquireCredential sampleArgs sampleEnv.tokenCreateResp =
      (Except.ok ("abc123", "provided"), []) := by
  have h := provided_pat_used_verbatim sampleArgs sampleEnv.tokenCreateResp
    " abc123 " (by decide) (by decide)
  rw [h]
  decide

/-- C5: the connection provisioner treats `PUT` statuses 200 and 201
identically as success, returning the connection id built deterministically
from the supplied components regardless of the response body, and fails
with the provisioning error carrying status and body for every other
status. -/
theorem connection_put_statuses (resp : PutResp)
    (cn pat sub rg acct proj : String) :
    (resp.status = 200 ∨ resp.status = 201 →
      PAT.create_ai_foundry_connection resp cn pat sub rg acct proj =
        (Except.ok (PAT.connectionIdOf sub rg acct proj cn),
         [Call.getToken managementScope,
          Call.connPut (PAT.connectionIdOf sub rg acct proj cn)
            ("Bearer " ++ pat)])) ∧
    (∀ body body' : String,
      PAT.create_ai_foundry_connection { status := 200, body := body }
          cn pat sub rg acct proj =
        PAT.create_ai_foundry_connection { status := 201, body := body' }
          cn pat sub rg acct proj) ∧
    (resp.status ≠ 200 → resp.status ≠ 201 →
      PAT.create_ai_foundry_connection resp cn pat sub rg acct proj =
        (Except.error
          (Err.connectionProvisioningFailed resp.status resp.body),
         [Call.getToken managementScope,
          Call.connPut (PAT.connectionIdOf sub rg acct proj cn)
            ("Bearer " ++ pat)])) := by
  refine ⟨?_, ?_, ?_⟩
  · intro h
    simp [PAT.create_ai_foundry_connection, if_pos h]
  · intro body body'
    simp [PAT.create_ai_foundry_connection]
  · intro h200 h201
    have h : ¬(resp.status = 200 ∨ resp.status = 201) := by
      rintro (h | h)
      · exact h200 h
      · exact h201 h
    simp [PAT.create_ai_foundry_connection, if_neg h]

/-- Witness for C5 at a 201 response and at a 500 response. -/
theorem connection_put_statuses_witness :
    PAT.create_ai_foundry_connection { status := 201, body := "created" }
        "databricks-pat-connection" "abc123" "sub-0000" "rg-ai" "acct"
        "proj" =
      (Except.ok (PAT.connectionIdOf "sub-0000" "rg-ai" "acct" "proj"
          "databricks-pat-connection"),
       [Call.getToken managementScope,
        Call.connPut (PAT.connectionIdOf "sub-0000" "rg-ai" "acct" "proj"
            "databricks-pat-connection") ("Bearer " ++ "abc123")]) ∧
    PAT.create_ai_foundry_connection { status := 500, body := "boom" }
        "databricks-pat-connection" "abc123" "sub-0000" "rg-ai" "acct"
        "proj" =
      (Except.error (Err.connectionProvisioningFailed 500 "boom"),
       [Call.getToken managementScope,
        Call.connPut (PAT.connectionIdOf "sub-0000" "rg-ai" "acct" "proj"
            "databricks-pat-connection") ("Bearer " ++ "abc123")]) :=
  ⟨(connection_put_statuses { status := 201, body := "created" }
      "databricks-pat-connection" "abc123" "sub-0000" "rg-ai" "acct"
      "proj").1 (Or.inr rfl),
   (connection_put_statuses { status := 500, body := "boom" }
      "databricks-pat-connection" "abc123" "sub-0000" "rg-ai" "acct"
      "proj").2.2 (by decide) (by decide)⟩

/-- C4: when the generation path runs (no truthy provided PAT) and the
token-creation endpoint answers with a status other than 200, the run fails
with the token-creation error carrying that status and the response body,
the platform state is untouched, and no connection `PUT` and no agent
list/create/update call is ever issued. -/
theorem token_creation_failure_aborts (env : Env) (st : PlatformState)
    (a : PAT.Args) (hgen : PAT.truthy a.databricks_pat = false)
    (hst : env.tokenCreateResp.status ≠ 200) :
    PAT.register_databricks_openapi_tool env st a =
      (Except.error (Err.tokenCreationFailed env.tokenCreateResp.status
          env.tokenCreateResp.body),
       st,
       [Call.getToken databricksScope,
        Call.tokenCreate (a.pat_lifetime_days * 24 * 60 * 60)
          a.pat_comment]) ∧
    (PAT.register_databricks_openapi_tool env st a).2.2.all
        (fun c => !c.isConnPut && !c.isAgentCall) = true := by
  have h1 : PAT.register_databricks_openapi_tool env st a =
      (Except.error (Err.tokenCreationFailed env.tokenCreateResp.status
          env.tokenCreateResp.body),
       st,
       [Call.getToken databricksScope,
        Call.tokenCreate (a.pat_lifetime_days * 24 * 60 * 60)
          a.pat_comment]) := by
    simp only [PAT.register_databricks_openapi_tool, PAT.acquireCredential,
      hgen, Bool.false_eq_true, if_false, PAT.create_databricks_pat,
      if_pos hst]
  refine ⟨h1, ?_⟩
  rw [h1]
  simp [Call.isConnPut, Call.isAgentCall]

/-- Witness for C4: a 403 token-creation response with no provided PAT. -/
theorem token_creation_failure_aborts_witness :
    PAT.register_databricks_openapi_tool
        { sampleEnv with
          tokenCreateResp := { status := 403, body := "denied",
                               token_value := none } }
        sampleState { sampleArgs with databricks_pat := none } =
      (Except.error (Err.tokenCreationFailed 403 "denied"),
       sampleState,
       [Call.getToken databricksScope,
        Call.tokenCreate (90 * 24 * 60 * 60) "AI Foundry Agent"]) := by
  have h := token_creation_failure_aborts
    { sampleEnv with
      tokenCreateResp := { status := 403, body := "denied",
                           token_value := none } }
    sampleState { sampleArgs with databricks_pat := none }
    (by decide) (by decide)
  exact h.1

/-- C8: a successful Mode B run with a provided PAT emits a result record
with `auth_type = "PersonalAccessToken"`, `pat_source = "provided"`,
`pat_lifetime_days = null`, and `connection_id` equal to the deterministic
path built from the supplied subscription, resource group, account, project
and connection name. -/
theorem mode_b_provided_pat_output (env : Env) (st : PlatformState)
    (a : PAT.Args) (p : String) (hp : a.databricks_pat = some p)
    (hne : PAT.strip p ≠ "")
    (hput : env.connPutResp.status = 200 ∨ env.connPutResp.status = 201) :
    ∃ out : PAT.Output,
      (PAT.register_databricks_openapi_tool env st a).1 = Except.ok out ∧
      out.auth_type = "PersonalAccessToken" ∧
      out.pat_source = "provided" ∧
      out.pat_lifetime_days = none ∧
      out.connection_id = PAT.connectionIdOf a.subscription_id
        a.resource_group a.account_name a.project_name a.connection_name := by
  rw [register_pat_provided_eq env st a p hp hne hput]
  exact ⟨_, rfl, rfl, rfl, rfl, rfl⟩

/-- Witness for C8 at the sample successful environment with the provided
PAT " abc123 ". -/
theorem mode_b_provided_pat_output_witness :
    ∃ out : PAT.Output,
      (PAT.register_databricks_openapi_tool sampleEnv sampleState
          sampleArgs).1 = Except.ok out ∧
      out.auth_type = "PersonalAccessToken" ∧
      out.pat_source = "provided" ∧
      out.pat_lifetime_days = none ∧
      out.connection_id = PAT.connectionIdOf "sub-0000" "rg-ai" "acct"
        "proj" "databricks-pat-connection" :=
  mode_b_provided_pat_output sampleEnv sampleState sampleArgs " abc123 "
    rfl (by decide) (Or.inl rfl)

/-- C6 (refuted for the PAT variant): at a state holding an agent with the
desired name, the PAT-script run issues an update call that omits the
`description` field of the platform update interface. -/
theorem pat_update_call_omits_description :
    (updateCallOf
        (PAT.register_databricks_openapi_tool sampleEnv sampleState
          sampleArgs).2.2).map (fun q => q.2.description.isSome) =
      some false := by
  decide

/-- C6 (amended): whenever the reconciler finds an existing agent with the
desired name, the update call it issues carries the full desired field set
of its own variant as an overwrite — name, description, instructions, tools
and model in the managed-identity variant; name, instructions, tools and
model, with the `description` keyword omitted, in the PAT variant. -/
theorem update_call_field_sets (env : Env) (st : PlatformState)
    (aP : PAT.Args) (aM : MI.Args) (diskSpec : SpecDoc) (p : String)
    (hp : aP.databricks_pat = some p) (hne : PAT.strip p ≠ "")
    (hput : env.connPutResp.status = 200 ∨ env.connPutResp.status = 201)
    (exP exM : Agent)
    (hfP : st.agents.find? (fun ag => ag.name == aP.agent_name) = some exP)
    (hfM : st.agents.find? (fun ag => ag.name == aM.agent_name) = some exM) :
    updateCallOf (PAT.register_databricks_openapi_tool env st aP).2.2 =
      some (exP.id, PAT.fieldsOf env aP) ∧
    (PAT.fieldsOf env aP).name = aP.agent_name ∧
    (PAT.fieldsOf env aP).description = none ∧
    (PAT.fieldsOf env aP).instructions = PAT.instructions ∧
    (PAT.fieldsOf env aP).tools = [PAT.toolOf env aP] ∧
    (PAT.fieldsOf env aP).model = aP.model_deployment_name ∧
    updateCallOf (MI.register_databricks_openapi_tool diskSpec st aM).2.2 =
      some (exM.id, MI.fieldsOf diskSpec aM) ∧
    (MI.fieldsOf diskSpec aM).name = aM.agent_name ∧
    (MI.fieldsOf diskSpec aM).description = some MI.agentDescription ∧
    (MI.fieldsOf diskSpec aM).instructions = MI.instructions ∧
    (MI.fieldsOf diskSpec aM).tools = [MI.toolOf diskSpec aM] ∧
    (MI.fieldsOf diskSpec aM).model = aM.model_deployment_name := by
  have hfP' : st.agents.find?
      (fun ag => ag.name == (PAT.fieldsOf env aP).name) = some exP := hfP
  have hfM' : st.agents.find?
      (fun ag => ag.name == (MI.fieldsOf diskSpec aM).name) = some exM := hfM
  refine ⟨?_, rfl, rfl, rfl, rfl, rfl, ?_, rfl, rfl, rfl, rfl, rfl⟩
  · rw [register_pat_provided_eq env st aP p hp hne hput]
    rw [reconcileAgent_found st (PAT.fieldsOf env aP) exP hfP']
    simp [updateCallOf]
  · rw [register_mi_eq diskSpec st aM]
    rw [reconcileAgent_found st (MI.fieldsOf diskSpec aM) exM hfM']
    simp [updateCallOf]

/-- Witness for the amended C6 at the sample state whose agent already
carries the default desired name. -/
theorem update_call_field_sets_witness :
    updateCallOf (PAT.register_databricks_openapi_tool sampleEnv sampleState
        sampleArgs).2.2 =
      some (sampleAgent.id, PAT.fieldsOf sampleEnv sampleArgs) ∧
    (PAT.fieldsOf sampleEnv sampleArgs).description = none ∧
    updateCallOf (MI.register_databricks_openapi_tool sampleSpec sampleState
        sampleMiArgs).2.2 =
      some (sampleAgent.id, MI.fieldsOf sampleSpec sampleMiArgs) ∧
    (MI.fieldsOf sampleSpec sampleMiArgs).description =
      some MI.agentDescription := by
  have h := update_call_field_sets sampleEnv sampleState sampleArgs
    sampleMiArgs sampleSpec " abc123 " rfl (by decide) (Or.inl rfl)
    sampleAgent sampleAgent (by decide) (by decide)
  exact ⟨h.1, h.2.2.1, h.2.2.2.2.2.2.1, h.2.2.2.2.2.2.2.2.1⟩

/-- C1: whenever some listed agent's name equals the desired name, both
variants of `register_databricks_openapi_tool` take the update path and
return that existing agent's id; and running the full workflow twice with
identical desired-state inputs yields the same agent id both times, the
second run issuing an update call and never a create call. -/
theorem reconciliation_idempotent (env : Env) (st : PlatformState)
    (aP : PAT.Args) (aM : MI.Args) (diskSpec : SpecDoc) (p : String)
    (hp : aP.databricks_pat = some p) (hne : PAT.strip p ≠ "")
    (hput : env.connPutResp.status = 200 ∨ env.connPutResp.status = 201) :
    (∀ ex, st.agents.find? (fun ag => ag.name == aP.agent_name) = some ex →
      ∃ out : PAT.Output,
        (PAT.register_databricks_openapi_tool env st aP).1 = Except.ok out ∧
        out.ai_foundry_agent_id = ex.id ∧
        (PAT.register_databricks_openapi_tool env st aP).2.2.any
          Call.isUpdate = true ∧
        (PAT.register_databricks_openapi_tool env st aP).2.2.any
          Call.isCreate = false) ∧
    (∀ ex, st.agents.find? (fun ag => ag.name == aM.agent_name) = some ex →
      (MI.register_databricks_openapi_tool diskSpec st aM).1 = ex.id ∧
      (MI.register_databricks_openapi_tool diskSpec st aM).2.2.any
        Call.isUpdate = true ∧
      (MI.register_databricks_openapi_tool diskSpec st aM).2.2.any
        Call.isCreate = false) ∧
    (∃ out1 out2 : PAT.Output,
      (PAT.register_databricks_openapi_tool env st aP).1 = Except.ok out1 ∧
      (PAT.register_databricks_openapi_tool env
        (PAT.register_databricks_openapi_tool env st aP).2.1 aP).1 =
          Except.ok out2 ∧
      out2.ai_foundry_agent_id = out1.ai_foundry_agent_id ∧
      (PAT.register_databricks_openapi_tool env
        (PAT.register_databricks_openapi_tool env st aP).2.1 aP).2.2.any
          Call.isUpdate = true ∧
      (PAT.register_databricks_openapi_tool env
        (PAT.register_databricks_openapi_tool env st aP).2.1 aP).2.2.any
          Call.isCreate = false) ∧
    ((MI.register_databricks_openapi_tool diskSpec
        (MI.register_databricks_openapi_tool diskSpec st aM).2.1 aM).1 =
          (MI.register_databricks_openapi_tool diskSpec st aM).1 ∧
     (MI.register_databricks_openapi_tool diskSpec
        (MI.register_databricks_openapi_tool diskSpec st aM).2.1 aM).2.2.any
          Call.isUpdate = true ∧
     (MI.register_databricks_openapi_tool diskSpec
        (MI.register_databricks_openapi_tool diskSpec st aM).2.1 aM).2.2.any
          Call.isCreate = false) := by
  refine ⟨?_, ?_, ?_, ?_⟩
  · intro ex hf
    have hf' : st.agents.find?
        (fun ag => ag.name == (PAT.fieldsOf env aP).name) = some ex := hf
    rw [register_pat_provided_eq env st aP p hp hne hput,
      reconcileAgent_found st (PAT.fieldsOf env aP) ex hf']
    exact ⟨_, rfl, rfl, by simp [Call.isUpdate],
      by simp [Call.isUpdate, Call.isCreate]⟩
  · intro ex hf
    have hf' : st.agents.find?
        (fun ag => ag.name == (MI.fieldsOf diskSpec aM).name) = some ex := hf
    rw [register_mi_eq diskSpec st aM,
      reconcileAgent_found st (MI.fieldsOf diskSpec aM) ex hf']
    exact ⟨rfl, by simp [Call.isUpdate],
      by simp [Call.isUpdate, Call.isCreate]⟩
  · obtain ⟨hid, hupd, hcre⟩ := reconcileAgent_twice st (PAT.fieldsOf env aP)
    rw [register_pat_provided_eq env st aP p hp hne hput]
    rw [register_pat_provided_eq env
      (reconcileAgent st (PAT.fieldsOf env aP)).2.1 aP p hp hne hput]
    refine ⟨_, _, rfl, rfl, hid, ?_, ?_⟩
    · simp only [List.any_append, List.any_cons, List.any_nil]
      simp [Call.isUpdate, hupd]
    · simp only [List.any_append, List.any_cons, List.any_nil]
      simp [Call.isUpdate, Call.isCreate, hcre]
  · obtain ⟨hid, hupd, hcre⟩ :=
      reconcileAgent_twice st (MI.fieldsOf diskSpec aM)
    rw [register_mi_eq diskSpec st aM]
    rw [register_mi_eq diskSpec
      (reconcileAgent st (MI.fieldsOf diskSpec aM)).2.1 aM]
    exact ⟨hid, hupd, hcre⟩

/-- Witness for C1 at the sample state, whose single agent already carries
the default desired name, under an all-success environment. -/
theorem reconciliation_idempotent_witness :
    (∀ ex, sampleState.agents.find?
        (fun ag => ag.name == sampleArgs.agent_name) = some ex →
      ∃ out : PAT.Output,
        (PAT.register_databricks_openapi_tool sampleEnv sampleState
            sampleArgs).1 = Except.ok out ∧
        out.ai_foundry_agent_id = ex.id ∧
        (PAT.register_databricks_openapi_tool sampleEnv sampleState
            sampleArgs).2.2.any Call.isUpdate = true ∧
        (PAT.register_databricks_openapi_tool sampleEnv sampleState
            sampleArgs).2.2.any Call.isCreate = false) ∧
    (∀ ex, sampleState.agents.find?
        (fun ag => ag.name == sampleMiArgs.agent_name) = some ex →
      (MI.register_databricks_openapi_tool sampleSpec sampleState
          sampleMiArgs).1 = ex.id ∧
      (MI.register_databricks_openapi_tool sampleSpec sampleState
          sampleMiArgs).2.2.any Call.isUpdate = true ∧
      (MI.register_databricks_openapi_tool sampleSpec sampleState
          sampleMiArgs).2.2.any Call.isCreate = false) ∧
    (∃ out1 out2 : PAT.Output,
      (PAT.register_databricks_openapi_tool sampleEnv sampleState
          sampleArgs).1 = Except.ok out1 ∧
      (PAT.register_databricks_openapi_tool sampleEnv
        (PAT.register_databricks_openapi_tool sampleEnv sampleState
          sampleArgs).2.1 sampleArgs).1 = Except.ok out2 ∧
      out2.ai_foundry_agent_id = out1.ai_foundry_agent_id ∧
      (PAT.register_databricks_openapi_tool sampleEnv
        (PAT.register_databricks_openapi_tool sampleEnv sampleState
          sampleArgs).2.1 sampleArgs).2.2.any Call.isUpdate = true ∧
      (PAT.register_databricks_openapi_tool sampleEnv
        (PAT.register_databricks_openapi_tool sampleEnv sampleState
          sampleArgs).2.1 sampleArgs).2.2.any Call.isCreate = false) ∧
    ((MI.register_databricks_openapi_tool sampleSpec
        (MI.register_databricks_openapi_tool sampleSpec sampleState
          sampleMiArgs).2.1 sampleMiArgs).1 =
          (MI.register_databricks_openapi_tool sampleSpec sampleState
            sampleMiArgs).1 ∧
     (MI.register_databricks_openapi_tool sampleSpec
        (MI.register_databricks_openapi_tool sampleSpec sampleState
          sampleMiArgs).2.1 sampleMiArgs).2.2.any Call.isUpdate = true ∧
     (MI.register_databricks_openapi_tool sampleSpec
        (MI.register_databricks_openapi_tool sampleSpec sampleState
          sampleMiArgs).2.1 sampleMiArgs).2.2.any Call.isCreate = false) :=
  reconciliation_idempotent sampleEnv sampleState sampleArgs sampleMiArgs
    sampleSpec " abc123 " rfl (by decide) (Or.inl rfl)
